import Mathlib

/-!
Verification of the opencap-core calibration scripts.

This file gives a shallow embedding, in Lean 4, of the parts of the
repository that the specification talks about:

* `visualizePickle.py` — loading a persisted camera-intrinsics record
  from a pickle file (`load_intrinsics_from_pickle`) and the way the
  visualizer interprets the stored image-size field
  (`visualize_camera_intrinsics`, lines 43–45);
* `main_calcIntrinsicsSony.py` — the intrinsic-calibration script:
  metadata fallback for the checkerboard parameters, the
  `loadTrialInfo` branch, the trial-manifest record that is written
  after aggregation, the deployed-intrinsics save paths, and the
  in-place file writes at the end of the script;
* `ReproducePaperResults/ProcessExperimentalDataTwoCameras.py` and
  `ReproducePaperResults/labValidationVideosToKinematicsThreeCameras.py`
  — trial-role dispatch by substring matching on folder names and the
  reordering that puts the extrinsics (and static) trial first.

File stores are modelled as partial maps from paths to contents, Python
exceptions as explicit outcome values, and the observable states of a
file during a write as a list of contents.
-/

/-! ## Embedding of `visualizePickle.py` -/

/-- A persisted camera-intrinsics record, as stored in
`cameraIntrinsics.pickle` and read by `visualizePickle.py`: the camera
matrix entries `fx, fy, cx, cy`, the distortion coefficients, and the
two entries `imageSize[0, 0]` and `imageSize[1, 0]` of the stored
image-size column vector. -/
structure PyIntrinsics where
  fx : Int
  fy : Int
  cx : Int
  cy : Int
  distortion : List Int
  imageSize0 : Int
  imageSize1 : Int
deriving DecidableEq

/-- Contents of a pickle file: either a well-formed intrinsics record or
bytes on which `pickle.load` raises. -/
inductive PickleContent where
  | valid (r : PyIntrinsics)
  | corrupt (msg : String)
deriving DecidableEq

/-- `pickle.load` on the contents of an opened file: succeeds exactly on
well-formed records. -/
def pickleLoad : PickleContent → Except String PyIntrinsics
  | .valid r => .ok r
  | .corrupt msg => .error msg

/-- A file system mapping file paths to pickle contents; `none` means the
path was never written (opening it raises `FileNotFoundError`). -/
abbrev PickleFS : Type := String → Option PickleContent

/-- Outcome of calling a Python function: it either returns a value or
propagates an exception to the caller. -/
inductive PyOutcome (α : Type) where
  | ret (a : α)
  | raised (e : String)
deriving DecidableEq

/-- `load_intrinsics_from_pickle` (visualizePickle.py lines 6–24): the
body opens the file and unpickles it; `except FileNotFoundError` returns
`None`, and `except Exception` returns `None` for every other failure,
so breaking out of the `try` never propagates. -/
def load_intrinsics_from_pickle (fs : PickleFS) (filepath : String) :
    PyOutcome (Option PyIntrinsics) :=
  match fs filepath with
  | none => .ret none
  | some c =>
    match pickleLoad c with
    | .ok r => .ret (some r)
    | .error _ => .ret none

/-- `H = int(intrinsics['imageSize'][0, 0])` (visualizePickle.py
line 43): the height the visualizer reads from a stored record. -/
def heightRead (r : PyIntrinsics) : Int := r.imageSize0

/-- `W = int(intrinsics['imageSize'][1, 0])` (visualizePickle.py
line 44): the width the visualizer reads from a stored record. -/
def widthRead (r : PyIntrinsics) : Int := r.imageSize1

/-- The corner pixel coordinates
`np.array([[0, 0], [W, 0], [W, H], [0, H]])` built by
`visualize_camera_intrinsics` (visualizePickle.py line 53) from the
width and height it read. -/
def imageCorners2d (r : PyIntrinsics) : List (Int × Int) :=
  [(0, 0), (widthRead r, 0), (widthRead r, heightRead r), (0, heightRead r)]

/-- The reading of the image-size field asserted by the specification:
first component is the width, second is the height. -/
def specWidthHeight (r : PyIntrinsics) : Int × Int :=
  (r.imageSize0, r.imageSize1)

/-! ## Embedding of `main_calcIntrinsicsSony.py` -/

/-- The `CheckerBoardParams` dictionary of the script: inner-corner grid
dimensions (width, height) and the square side length. -/
structure CheckerBoardParams where
  dimensions : Nat × Nat
  squareSize : Nat
deriving DecidableEq

/-- The `checkerBoard` entry of `sessionMetadata.yaml` as the script
reads it (main_calcIntrinsicsSony.py lines 46–49). -/
structure CheckerBoardMeta where
  black2BlackCornersWidth_n : Nat
  black2BlackCornersHeight_n : Nat
  squareSideLength_mm : Nat
deriving DecidableEq

/-- The checkerboard parameters built from a metadata file
(main_calcIntrinsicsSony.py lines 46–49). -/
def paramsOfMeta (m : CheckerBoardMeta) : CheckerBoardParams :=
  { dimensions := (m.black2BlackCornersWidth_n, m.black2BlackCornersHeight_n),
    squareSize := m.squareSideLength_mm }

/-- Lines 44–50 of `main_calcIntrinsicsSony.py`: if the metadata file
exists its checkerboard values replace `CheckerBoardParams`; if the file
does not exist the parameters are not replaced. -/
def applyMetadata (md : Option CheckerBoardMeta) (p : CheckerBoardParams) :
    CheckerBoardParams :=
  match md with
  | none => p
  | some m => paramsOfMeta m

/-- The trial-manifest record `trialInfo` written to `trialInfo.yaml`
(main_calcIntrinsicsSony.py lines 78–82): the ordered trial list, the
checkerboard width, height and square size, and the camera model. -/
structure TrialInfo where
  trials : List String
  nSquaresWidth : Nat
  nSquaresHeight : Nat
  squareSize : Nat
  cameraModel : String
deriving DecidableEq

/-- Construction of the manifest record from the script state
(main_calcIntrinsicsSony.py lines 78–82). -/
def mkTrialInfo (trials : List String) (p : CheckerBoardParams)
    (cameraModel : String) : TrialInfo :=
  { trials := trials,
    nSquaresWidth := p.dimensions.1,
    nSquaresHeight := p.dimensions.2,
    squareSize := p.squareSize,
    cameraModel := cameraModel }

/-- The checkerboard parameters restored from a manifest on the
`loadTrialInfo` path (main_calcIntrinsicsSony.py lines 57–60). -/
def readParams (ti : TrialInfo) : CheckerBoardParams :=
  { dimensions := (ti.nSquaresWidth, ti.nSquaresHeight),
    squareSize := ti.squareSize }

/-- A store of trial manifests, mapping a file path to the manifest
recorded there (`none` for a path never written). -/
abbrev ManifestStore : Type := String → Option TrialInfo

/-- Writing a manifest into the store at a path. -/
def writeManifest (s : ManifestStore) (path : String) (ti : TrialInfo) :
    ManifestStore :=
  fun q => if q = path then some ti else s q

/-- The error message raised at main_calcIntrinsicsSony.py line 62 (the
two adjacent Python string literals concatenate). -/
def trialFileMissingMsg : String :=
  "trialFile doesnt exist. Enter trials and CheckerBoardParams manually."

/-- Inputs of one run of `main_calcIntrinsicsSony.py` that the
configuration stage reads: the caller-supplied defaults, the optional
session metadata, the optional trial manifest, and the `loadTrialInfo`
flag. -/
structure ScriptInput where
  defaultTrials : List String
  defaultParams : CheckerBoardParams
  metadata : Option CheckerBoardMeta
  manifest : Option TrialInfo
  loadTrialInfo : Bool

/-- The configuration stage of `main_calcIntrinsicsSony.py`
(lines 42–62): apply the metadata fallback, then, when `loadTrialInfo`
is set, replace trials and parameters from the manifest or raise when
the manifest file does not exist. -/
def setupConfig (inp : ScriptInput) :
    Except String (List String × CheckerBoardParams) :=
  let p := applyMetadata inp.metadata inp.defaultParams
  if inp.loadTrialInfo then
    match inp.manifest with
    | some ti => .ok (ti.trials, readParams ti)
    | none => .error trialFileMissingMsg
  else
    .ok (inp.defaultTrials, p)

/-- The script up to and including the averaging call
(main_calcIntrinsicsSony.py line 66): `computeAverageIntrinsics` runs
only if the configuration stage did not raise.  The averaging function
itself lives in `utilsCheckerSony`, outside this repository slice, so it
is a parameter. -/
def runScript {α : Type} (avg : List String → CheckerBoardParams → α)
    (inp : ScriptInput) : Except String α :=
  (setupConfig inp).map (fun c => avg c.1 c.2)

/-- `permIntrinsicDir`/save path of the deployed intrinsics record
(main_calcIntrinsicsSony.py lines 72–75), as its ordered list of path
components: `os.path.join(os.getcwd(), 'CameraIntrinsics', cameraModel,
deployedFolderName)` joined with `'cameraIntrinsics.pickle'`. -/
def permIntrinsicPath (cwd cameraModel deployedFolderName : String) :
    List String :=
  [cwd, "CameraIntrinsics", cameraModel, deployedFolderName,
   "cameraIntrinsics.pickle"]

/-- The save loop of main_calcIntrinsicsSony.py lines 70–75: one
deployed-intrinsics path per deployed folder name.  The session name and
session directory are in scope in the script but do not enter the
path. -/
def savePathsOfRun (cwd sessionName sessionDir cameraModel : String)
    (deployedFolderNames : List String) : List (List String) :=
  deployedFolderNames.map (fun d => permIntrinsicPath cwd cameraModel d)

/-- Modelled from the spec: the per-session extrinsics record location.
The writer (`calcExtrinsicsFromVideo` / `saveCameraParameters` in
`main`/`utilsChecker`) is not under this repository slice; the path
shape follows spec §6 ("serialized CameraExtrinsics per
SessionCameraKey, stored alongside session data") and the reader in
`ViewPickleFiles.py`, which opens
`<sessionDir>/Videos/<cam>/cameraIntrinsicsExtrinsics.pickle`. -/
def sessionExtrinsicsPath (sessionDir cam : String) : List String :=
  [sessionDir, "Videos", cam, "cameraIntrinsicsExtrinsics.pickle"]

/-- The externally observable contents of the destination file during
the manifest/comparison writes of main_calcIntrinsicsSony.py
lines 83–84 and 86–87: `open(path, 'w')` truncates the final path in
place, then the dump writes the content.  A reader sees, in order, the
old contents, the truncated file and the full new contents. -/
def inPlaceWriteStates (old : Option String) (content : String) :
    List (Option String) :=
  [old, some "", some content]

/-- The contents of the destination file when the write fails right
after the file was opened (truncated) and before the dump completed. -/
def failedWriteState (old : Option String) (content : String) :
    Option String :=
  some ""

/-- Atomicity of a write, as the specification states it: every
externally observable state during the write is either the old contents
or the complete new record. -/
def AtomicWrite (old new : Option String) (states : List (Option String)) :
    Prop :=
  ∀ s ∈ states, s = old ∨ s = new

instance (old new : Option String) (states : List (Option String)) :
    Decidable (AtomicWrite old new states) :=
  List.decidableBAll _ states

/-! ## Embedding of the `ReproducePaperResults` scripts -/

/-- Python's `str.lower()` on the character list of a string. -/
def pyLower (s : String) : List Char := s.data.map Char.toLower

/-- Whether `p` occurs at the start of `s` (helper for substring
containment). -/
def listStartsWith : List Char → List Char → Bool
  | _, [] => true
  | [], _ :: _ => false
  | a :: s, b :: p => a == b && listStartsWith s p

/-- Python's `p in s` on character lists: `p` occurs contiguously
somewhere in `s`. -/
def listHasSub : List Char → List Char → Bool
  | [], p => p.isEmpty
  | a :: s, p => listStartsWith (a :: s) p || listHasSub s p

/-- `'extrinsics' in trial.lower()` — the trial-role dispatch of
ProcessExperimentalDataTwoCameras.py lines 178–181 and
labValidationVideosToKinematicsThreeCameras.py lines 305–308. -/
def extrinsicsTrialOf (trial : String) : Bool :=
  if listHasSub (pyLower trial) "extrinsics".data then true else false

/-- `'static' in trial.lower()` — the scale-model dispatch of
labValidationVideosToKinematicsThreeCameras.py lines 311–314. -/
def staticTrialOf (trial : String) : Bool :=
  if listHasSub (pyLower trial) "static".data then true else false

/-- The role flags `(extrinsicsTrial, scaleModel)` computed for a trial
by the three-camera pipeline before calling `process_trial`
(labValidationVideosToKinematicsThreeCameras.py lines 304–314). -/
def trialFlags (trial : String) : Bool × Bool :=
  (extrinsicsTrialOf trial, staticTrialOf trial)

/-- The loop `for trial in trials_tmp: if p(trial): idx =
trials_tmp.index(trial)`: the final value is the index of the first
occurrence of the last element satisfying `p`, and the variable stays
unassigned (`none`) when no element matches. -/
def lastMatchIdx (p : String → Bool) (l : List String) : Option Nat :=
  (l.filter p).getLast?.map (fun t => l.indexOf t)

/-- Trial reordering of ProcessExperimentalDataTwoCameras.py
lines 141–150: the extrinsics trial first, then every trial whose
lowercased name does not contain `'extrinsics'`.  When no trial name
matches, `extrinsics_idx` is unassigned and the script raises
`NameError` (`none`). -/
def reorder2 (l : List String) : Option (List String) :=
  match lastMatchIdx extrinsicsTrialOf l with
  | none => none
  | some i => some (l.getD i "" :: l.filter (fun t => !extrinsicsTrialOf t))

/-- Trial reordering of labValidationVideosToKinematicsThreeCameras.py
lines 253–273: the extrinsics trial first, the static trial second
(`session_with_static` is initialized `True`, so the static index is
always demanded), then every trial containing neither substring.  When
either index variable stays unassigned the script raises `NameError`
(`none`). -/
def reorder3 (l : List String) : Option (List String) :=
  match lastMatchIdx extrinsicsTrialOf l, lastMatchIdx staticTrialOf l with
  | some i, some j =>
    some (l.getD i "" :: l.getD j "" ::
      l.filter (fun t => !staticTrialOf t && !extrinsicsTrialOf t))
  | _, _ => none

/-! ## Concrete sample values used by witnesses and counterexamples -/

/-- A 720p intrinsics record whose stored image-size column vector holds
`720` in entry `[0, 0]` and `1280` in entry `[1, 0]`. -/
def sample720p : PyIntrinsics :=
  { fx := 1000, fy := 1000, cx := 640, cy := 360,
    distortion := [0, 0, 0, 0, 0], imageSize0 := 720, imageSize1 := 1280 }

/-- A file system holding a single unreadable pickle file. -/
def corruptFS : PickleFS :=
  fun q => if q = "bad.pickle" then some (.corrupt "bad magic") else none

/-- Script input with `loadTrialInfo = True` and no manifest file. -/
def inpNoManifest : ScriptInput :=
  { defaultTrials := ["Cam4b"],
    defaultParams := { dimensions := (8, 11), squareSize := 60 },
    metadata := none, manifest := none, loadTrialInfo := true }

/-- Script input with no metadata file and `loadTrialInfo = False`. -/
def inpNoMeta : ScriptInput :=
  { defaultTrials := ["Cam4b"],
    defaultParams := { dimensions := (8, 11), squareSize := 60 },
    metadata := none, manifest := none, loadTrialInfo := false }

/-- A sample metadata checkerboard record. -/
def meta0 : CheckerBoardMeta :=
  { black2BlackCornersWidth_n := 11, black2BlackCornersHeight_n := 8,
    squareSideLength_mm := 35 }

/-- `inpNoMeta` with the metadata file present. -/
def inpWithMeta : ScriptInput := { inpNoMeta with metadata := some meta0 }

/-- A sample serialized manifest content for the write-atomicity
counterexample. -/
def manifestYamlSample : String := "trials: [Cam4b]"

/-! ## Shared helper lemmas -/

/-- Characterization of `load_intrinsics_from_pickle`: it always
returns, and its value is determined by what the file system holds at
the path. -/
theorem load_intrinsics_eq (fs : PickleFS) (p : String) :
    load_intrinsics_from_pickle fs p =
      .ret (match fs p with
            | some (.valid r) => some r
            | _ => none) := by
  unfold load_intrinsics_from_pickle
  rcases fs p with _ | (r | m) <;> simp [pickleLoad]

/-- The element that `lastMatchIdx` points at satisfies the predicate
and belongs to the list. -/
theorem lastMatchIdx_getD {p : String → Bool} {l : List String} {i : Nat}
    (h : lastMatchIdx p l = some i) :
    p (l.getD i "") = true ∧ l.getD i "" ∈ l := by
  unfold lastMatchIdx at h
  rcases hg : (l.filter p).getLast? with _ | t
  · rw [hg] at h; simp at h
  · rw [hg] at h
    simp only [Option.map_some'] at h
    injection h with h'
    subst h'
    have htf : t ∈ l.filter p := by
      rcases List.mem_getLast?_eq_getLast (Option.mem_def.mpr hg) with ⟨hne, ht⟩
      rw [ht]
      exact List.getLast_mem hne
    have htl : t ∈ l := List.mem_of_mem_filter htf
    have hpt : p t = true := List.of_mem_filter htf
    have hlt : List.indexOf t l < l.length := List.indexOf_lt_length.mpr htl
    rw [List.getD_eq_get l "" hlt, List.indexOf_get hlt]
    exact ⟨hpt, htl⟩

/-- When some element of the list matches, `lastMatchIdx` is assigned. -/
theorem lastMatchIdx_isSome {p : String → Bool} {l : List String} {t : String}
    (htl : t ∈ l) (hpt : p t = true) :
    ∃ i, lastMatchIdx p l = some i := by
  have htf : t ∈ l.filter p := List.mem_filter.mpr ⟨htl, hpt⟩
  have hne : l.filter p ≠ [] := List.ne_nil_of_mem htf
  rcases hg : (l.filter p).getLast? with _ | u
  · exact absurd (List.getLast?_eq_none_iff.mp hg) hne
  · exact ⟨List.indexOf u l, by unfold lastMatchIdx; rw [hg]; rfl⟩

/-! ## Claims -/

/-- C1: reading a calibration record at a storage key (file path) that
was never written returns the NotFound result — the loader returns
`None` after the missing-file error — and never a default- or
zero-valued `CameraIntrinsics` record. -/
theorem claim1_unwritten_key_reads_none (fs : PickleFS) (p : String)
    (h : fs p = none) :
    load_intrinsics_from_pickle fs p = .ret none ∧
      ∀ r : PyIntrinsics, load_intrinsics_from_pickle fs p ≠ .ret (some r) := by
  rw [load_intrinsics_eq, h]
  exact ⟨rfl, fun r hr => by simp at hr⟩

/-- Witness for C1 at the empty file system and a concrete unwritten
path. -/
theorem claim1_unwritten_key_reads_none_witness :
    load_intrinsics_from_pickle (fun _ => none) "unwritten.pickle" = .ret none ∧
      ∀ r : PyIntrinsics,
        load_intrinsics_from_pickle (fun _ => none) "unwritten.pickle" ≠
          .ret (some r) :=
  claim1_unwritten_key_reads_none (fun _ => none) "unwritten.pickle" rfl

/-- C2: the trial manifest written after aggregation records exactly the
ordered trial list, the checkerboard width, height and square size, and
the camera model; re-reading it through the `loadTrialInfo` path
restores trials and `CheckerBoardParams` equal to what was written. -/
theorem claim2_manifest_roundtrip (s : ManifestStore) (path : String)
    (trials : List String) (p : CheckerBoardParams) (cm : String) :
    (mkTrialInfo trials p cm).trials = trials ∧
      (mkTrialInfo trials p cm).nSquaresWidth = p.dimensions.1 ∧
      (mkTrialInfo trials p cm).nSquaresHeight = p.dimensions.2 ∧
      (mkTrialInfo trials p cm).squareSize = p.squareSize ∧
      (mkTrialInfo trials p cm).cameraModel = cm ∧
      writeManifest s path (mkTrialInfo trials p cm) path =
        some (mkTrialInfo trials p cm) ∧
      (writeManifest s path (mkTrialInfo trials p cm) path).map
          (fun ti => (ti.trials, readParams ti)) = some (trials, p) := by
  obtain ⟨⟨w, hgt⟩, sq⟩ := p
  refine ⟨rfl, rfl, rfl, rfl, rfl, ?_, ?_⟩ <;>
    simp [writeManifest, mkTrialInfo, readParams]

/-- C4: when `loadTrialInfo` is requested and the manifest file does not
exist, the run fails immediately with the error instructing the caller
to supply trials and checkerboard parameters manually, and no averaging
is attempted (the result is the error for every averaging function). -/
theorem claim4_missing_manifest_fatal (inp : ScriptInput) {α : Type}
    (avg : List String → CheckerBoardParams → α)
    (hload : inp.loadTrialInfo = true) (hmf : inp.manifest = none) :
    runScript avg inp = .error trialFileMissingMsg ∧
      setupConfig inp = .error trialFileMissingMsg := by
  have hs : setupConfig inp = .error trialFileMissingMsg := by
    simp [setupConfig, hload, hmf]
  exact ⟨by simp [runScript, hs, Except.map], hs⟩

/-- Witness for C4 at a concrete input with `loadTrialInfo = True` and
no manifest. -/
theorem claim4_missing_manifest_fatal_witness :
    runScript (fun t p => (t, p)) inpNoManifest = .error trialFileMissingMsg ∧
      setupConfig inpNoManifest = .error trialFileMissingMsg :=
  claim4_missing_manifest_fatal inpNoManifest (fun t p => (t, p)) rfl rfl

/-- C5: when the session metadata file is absent the run proceeds with
the caller-supplied defaults unchanged; when it is present the
checkerboard parameters are replaced by the metadata values. -/
theorem claim5_metadata_fallback (inp : ScriptInput)
    (hload : inp.loadTrialInfo = false) :
    (inp.metadata = none →
        setupConfig inp = .ok (inp.defaultTrials, inp.defaultParams)) ∧
      ∀ m, inp.metadata = some m →
        setupConfig inp = .ok (inp.defaultTrials, paramsOfMeta m) := by
  constructor
  · intro hm; simp [setupConfig, hload, applyMetadata, hm]
  · intro m hm; simp [setupConfig, hload, applyMetadata, hm]

/-- Witness for C5: one run without and one run with a metadata file. -/
theorem claim5_metadata_fallback_witness :
    setupConfig inpNoMeta = .ok (inpNoMeta.defaultTrials, inpNoMeta.defaultParams) ∧
      setupConfig inpWithMeta = .ok (inpWithMeta.defaultTrials, paramsOfMeta meta0) :=
  ⟨(claim5_metadata_fallback inpNoMeta rfl).1 rfl,
   (claim5_metadata_fallback inpWithMeta rfl).2 meta0 rfl⟩

/-- C8 counterexample: the claim says the first component of the stored
image-size field is the width and the second the height; on the record
`sample720p` the program (visualizePickle.py lines 43–45) reads the
width from the second component and the height from the first, so the
pair the program reads differs from the pair the claim asserts. -/
theorem claim8_counterexample :
    (widthRead sample720p, heightRead sample720p) ≠ specWidthHeight sample720p ∧
      widthRead sample720p ≠ sample720p.imageSize0 := by
  constructor <;> decide

/-- C8 amended: in the persisted record the first component of the
image-size field is the image height and the second the image width:
the visualizer reads `H` from entry `[0, 0]` and `W` from entry
`[1, 0]`, and uses the second component as the horizontal extent of the
image corners and the first as the vertical extent. -/
theorem claim8_imageSize_height_first (r : PyIntrinsics) :
    heightRead r = r.imageSize0 ∧ widthRead r = r.imageSize1 ∧
      (imageCorners2d r).map Prod.fst = [0, r.imageSize1, r.imageSize1, 0] ∧
      (imageCorners2d r).map Prod.snd = [0, 0, r.imageSize0, r.imageSize0] :=
  ⟨rfl, rfl, rfl, rfl⟩

/-- C10: for every file-path input, `load_intrinsics_from_pickle`
returns either the loaded record or `None` and never propagates an
exception; a missing file and an unpickling failure are both mapped to
`None`. -/
theorem claim10_loader_total (fs : PickleFS) (p : String) :
    (∃ o, load_intrinsics_from_pickle fs p = .ret o) ∧
      (∀ e, load_intrinsics_from_pickle fs p ≠ .raised e) ∧
      (fs p = none → load_intrinsics_from_pickle fs p = .ret none) ∧
      (∀ m, fs p = some (.corrupt m) →
        load_intrinsics_from_pickle fs p = .ret none) ∧
      (∀ r, fs p = some (.valid r) →
        load_intrinsics_from_pickle fs p = .ret (some r)) := by
  refine ⟨⟨_, load_intrinsics_eq fs p⟩, ?_, ?_, ?_, ?_⟩
  · intro e h; rw [load_intrinsics_eq] at h; exact PyOutcome.noConfusion h
  · intro h; rw [load_intrinsics_eq, h]
  · intro m h; rw [load_intrinsics_eq, h]
  · intro r h; rw [load_intrinsics_eq, h]

/-- Witness for C10: a corrupt file and a missing file both read as
`None`, and neither raises. -/
theorem claim10_loader_total_witness :
    load_intrinsics_from_pickle corruptFS "missing.pickle" = .ret none ∧
      load_intrinsics_from_pickle corruptFS "bad.pickle" = .ret none ∧
      ∀ e, load_intrinsics_from_pickle corruptFS "bad.pickle" ≠ .raised e :=
  ⟨(claim10_loader_total corruptFS "missing.pickle").2.2.1 rfl,
   (claim10_loader_total corruptFS "bad.pickle").2.2.2.1 "bad magic" rfl,
   (claim10_loader_total corruptFS "bad.pickle").2.1⟩

/-- C3 counterexample: the trial-manifest write of
main_calcIntrinsicsSony.py lines 83–84 is not atomic.  Writing the
sample manifest content over a never-written slot exposes the truncated
(empty) state, which is neither the old contents nor the complete
record, and a write failing right after the open leaves the final slot
truncated rather than unchanged. -/
theorem claim3_counterexample :
    ¬ AtomicWrite none (some manifestYamlSample)
        (inPlaceWriteStates none manifestYamlSample) ∧
      failedWriteState none manifestYamlSample ≠ none := by
  constructor <;> decide

/-- C3 amended: calibration-store writes in the script (trial manifest,
intrinsic-comparison record) are performed in place, not atomically:
`open(path, 'w')` truncates the final slot, then the content is
written, so whenever the new content is nonempty and the old contents
were not the empty record a reader can observe the truncated state, and
a failure after the open leaves the final slot modified.  The sequence
still begins at the old contents and ends at the full record. -/
theorem claim3_writes_in_place (old : Option String) (c : String)
    (hold : old ≠ some "") (hc : c ≠ "") :
    ¬ AtomicWrite old (some c) (inPlaceWriteStates old c) ∧
      (inPlaceWriteStates old c).headD none = old ∧
      (inPlaceWriteStates old c).getLast? = some (some c) ∧
      some "" ∈ inPlaceWriteStates old c ∧
      failedWriteState old c ≠ old := by
  refine ⟨?_, rfl, rfl, ?_, ?_⟩
  · intro h
    rcases h (some "") (by simp [inPlaceWriteStates]) with h' | h'
    · exact hold h'.symm
    · exact hc (Option.some.inj h').symm
  · simp [inPlaceWriteStates]
  · exact fun h => hold h.symm

/-- Witness for C3 amended at a never-written slot and a concrete
one-character content. -/
theorem claim3_writes_in_place_witness :
    ¬ AtomicWrite none (some "x") (inPlaceWriteStates none "x") ∧
      (inPlaceWriteStates none "x").headD none = none ∧
      (inPlaceWriteStates none "x").getLast? = some (some "x") ∧
      some "" ∈ inPlaceWriteStates none "x" ∧
      failedWriteState none "x" ≠ none :=
  claim3_writes_in_place none "x" (by decide) (by decide)

/-- C6: the deployed intrinsics record is addressed by the camera model
and the deployed folder name only — the save paths are unchanged under
any change of session name or session directory, there is one path per
deployed folder name — while the per-session extrinsics record lives
under the session directory, and no deployed-intrinsics path coincides
with a session-extrinsics path. -/
theorem claim6_intrinsics_key (cwd s1 sd1 s2 sd2 model : String)
    (dfns : List String) (sdir cam : String) :
    savePathsOfRun cwd s1 sd1 model dfns =
        savePathsOfRun cwd s2 sd2 model dfns ∧
      (savePathsOfRun cwd s1 sd1 model dfns).length = dfns.length ∧
      (∀ d ∈ dfns,
        permIntrinsicPath cwd model d ∈ savePathsOfRun cwd s1 sd1 model dfns) ∧
      (sessionExtrinsicsPath sdir cam).headD "" = sdir ∧
      ∀ d, sessionExtrinsicsPath sdir cam ≠ permIntrinsicPath cwd model d := by
  refine ⟨rfl, List.length_map _ _, ?_, rfl, ?_⟩
  · intro d hd
    exact List.mem_map_of_mem _ hd
  · intro d h
    have hlen := congrArg List.length h
    simp [sessionExtrinsicsPath, permIntrinsicPath] at hlen

/-- Witness for C6 with the script's folder names: the save paths are
independent of the session, `Deployed` yields one of them, and the
session extrinsics path differs from the deployed path. -/
theorem claim6_intrinsics_key_witness :
    savePathsOfRun "cwd" "SonyIntrinsics" "dirA" "SONYRX0-II-Cam4b"
          ["Deployed_720_60fps", "Deployed"] =
        savePathsOfRun "cwd" "OtherSession" "dirB" "SONYRX0-II-Cam4b"
          ["Deployed_720_60fps", "Deployed"] ∧
      permIntrinsicPath "cwd" "SONYRX0-II-Cam4b" "Deployed" ∈
        savePathsOfRun "cwd" "SonyIntrinsics" "dirA" "SONYRX0-II-Cam4b"
          ["Deployed_720_60fps", "Deployed"] ∧
      sessionExtrinsicsPath "February_2/subject2" "Cam4" ≠
        permIntrinsicPath "cwd" "SONYRX0-II-Cam4b" "Deployed" :=
  ⟨(claim6_intrinsics_key "cwd" "SonyIntrinsics" "dirA" "OtherSession" "dirB"
      "SONYRX0-II-Cam4b" ["Deployed_720_60fps", "Deployed"]
      "February_2/subject2" "Cam4").1,
   (claim6_intrinsics_key "cwd" "SonyIntrinsics" "dirA" "OtherSession" "dirB"
      "SONYRX0-II-Cam4b" ["Deployed_720_60fps", "Deployed"]
      "February_2/subject2" "Cam4").2.2.1 "Deployed" (by decide),
   (claim6_intrinsics_key "cwd" "SonyIntrinsics" "dirA" "OtherSession" "dirB"
      "SONYRX0-II-Cam4b" ["Deployed_720_60fps", "Deployed"]
      "February_2/subject2" "Cam4").2.2.2.2 "Deployed"⟩

/-- C7 counterexample: trial roles are not assigned by a typed tag — the
dispatch flips on a case-insensitive substring of the folder name
alone: a name containing `EXTRINSICS` in any case is classified as the
extrinsics trial and the same name without the substring is not, and
likewise for `static`. -/
theorem claim7_counterexample :
    extrinsicsTrialOf "warmupEXTRINSICS" = true ∧
      extrinsicsTrialOf "warmup" = false ∧
      staticTrialOf "STATIC_pose" = true ∧
      staticTrialOf "squat1" = false := by
  refine ⟨?_, ?_, ?_, ?_⟩ <;> decide

/-- C7 amended: a trial's role is determined by case-insensitive
substring matching of `extrinsics` (extrinsics-calibration role) and
`static` (model-scaling role) against the trial folder name; the role
flags are a function of the lowercased name, and there is no typed
trial-role tag. -/
theorem claim7_role_by_substring (t : String) :
    trialFlags t = (listHasSub (pyLower t) "extrinsics".data,
                    listHasSub (pyLower t) "static".data) ∧
      ∀ u : String, pyLower t = pyLower u → trialFlags t = trialFlags u := by
  constructor
  · cases h1 : listHasSub (pyLower t) "extrinsics".data <;>
      cases h2 : listHasSub (pyLower t) "static".data <;>
        simp [trialFlags, extrinsicsTrialOf, staticTrialOf, h1, h2]
  · intro u h
    simp [trialFlags, extrinsicsTrialOf, staticTrialOf, h]

/-- Witness for C7 amended: the role flags of `ExtrinsicsWalk` follow
the substring rule and agree with those of `EXTRINSICSwalk`, which
lowercases to the same name. -/
theorem claim7_role_by_substring_witness :
    trialFlags "ExtrinsicsWalk" =
        (listHasSub (pyLower "ExtrinsicsWalk") "extrinsics".data,
         listHasSub (pyLower "ExtrinsicsWalk") "static".data) ∧
      trialFlags "ExtrinsicsWalk" = trialFlags "EXTRINSICSwalk" :=
  ⟨(claim7_role_by_substring "ExtrinsicsWalk").1,
   (claim7_role_by_substring "ExtrinsicsWalk").2 "EXTRINSICSwalk" (by decide)⟩

/-- C9: in both reprocessing pipelines, whenever the session's
trial-folder list contains a name with the case-insensitive substring
`extrinsics`, the processing order places an extrinsics trial first —
in the two-camera pipeline every later entry is a non-extrinsics trial,
and in the three-camera pipeline (whenever the reordering completes)
the static trial comes second and every later entry is a regular
trial — so no regular trial is processed before the extrinsics
trial. -/
theorem claim9_extrinsics_first (l : List String) :
    ((∃ t ∈ l, extrinsicsTrialOf t = true) →
      ∃ l2, reorder2 l = some l2 ∧
        l2.headD "" ∈ l ∧
        extrinsicsTrialOf (l2.headD "") = true ∧
        ∀ t ∈ l2.drop 1, extrinsicsTrialOf t = false) ∧
      ∀ l3, reorder3 l = some l3 →
        extrinsicsTrialOf (l3.headD "") = true ∧
        staticTrialOf ((l3.drop 1).headD "") = true ∧
        ∀ t ∈ l3.drop 2, extrinsicsTrialOf t = false ∧ staticTrialOf t = false := by
  constructor
  · rintro ⟨t, htl, hpt⟩
    obtain ⟨i, hi⟩ := lastMatchIdx_isSome htl hpt
    obtain ⟨hp, hmem⟩ := lastMatchIdx_getD hi
    refine ⟨l.getD i "" :: l.filter (fun u => !extrinsicsTrialOf u),
            by simp [reorder2, hi], hmem, hp, ?_⟩
    intro u hu
    simp only [List.drop_succ_cons, List.drop_zero] at hu
    have hne := List.of_mem_filter hu
    simpa using hne
  · intro l3 h
    rcases he : lastMatchIdx extrinsicsTrialOf l with _ | i
    · simp [reorder3, he] at h
    rcases hs : lastMatchIdx staticTrialOf l with _ | j
    · simp [reorder3, he, hs] at h
    simp only [reorder3, he, hs, Option.some.injEq] at h
    subst h
    obtain ⟨hpe, -⟩ := lastMatchIdx_getD he
    obtain ⟨hps, -⟩ := lastMatchIdx_getD hs
    refine ⟨hpe, hps, ?_⟩
    intro u hu
    simp only [List.drop_succ_cons, List.drop_zero] at hu
    have hne := List.of_mem_filter hu
    simp only [Bool.and_eq_true, Bool.not_eq_true'] at hne
    exact ⟨hne.2, hne.1⟩

/-- Witness for C9 on the trial list `[walk1, ExtrinsicsCalib,
StaticPose]`: both pipelines put `ExtrinsicsCalib` first, and the
three-camera pipeline puts `StaticPose` second. -/
theorem claim9_extrinsics_first_witness :
    (∃ l2, reorder2 ["walk1", "ExtrinsicsCalib", "StaticPose"] = some l2 ∧
        l2.headD "" ∈ ["walk1", "ExtrinsicsCalib", "StaticPose"] ∧
        extrinsicsTrialOf (l2.headD "") = true ∧
        ∀ t ∈ l2.drop 1, extrinsicsTrialOf t = false) ∧
      (extrinsicsTrialOf
          ((["ExtrinsicsCalib", "StaticPose", "walk1"] : List String).headD "") =
        true ∧
        staticTrialOf
            (((["ExtrinsicsCalib", "StaticPose", "walk1"] : List String).drop 1).headD
              "") =
          true ∧
        ∀ t ∈ (["ExtrinsicsCalib", "StaticPose", "walk1"] : List String).drop 2,
          extrinsicsTrialOf t = false ∧ staticTrialOf t = false) :=
  ⟨(claim9_extrinsics_first ["walk1", "ExtrinsicsCalib", "StaticPose"]).1
      (by decide),
   (claim9_extrinsics_first ["walk1", "ExtrinsicsCalib", "StaticPose"]).2
      ["ExtrinsicsCalib", "StaticPose", "walk1"] (by decide)⟩
